import Mathlib

/-!
# Verification of the 3pillars e-commerce core

Shallow embedding of the multi-tenant commerce pipeline of the
`3pillars-backend` repository: cart pricing (`ecommerce/models.py`),
cart mutation endpoints (`ecommerce/views_cart.py`), cart-to-order
conversion and order updates (`ecommerce/views_orders.py`), the Yoco
payment gateway adapter (`ecommerce/services/yoco_service.py`,
`ecommerce/views_yoco.py`) and tenant resolution (`ecommerce/utils.py`).

Monetary values are embedded as exact rationals (the source stores them
in Python `Decimal` columns with two fractional digits).  Nullable
columns are `Option`; Python truthiness of a nullable integer column
(`None` and `0` are falsy) is made explicit.  Timestamps are abstract
`Nat` ticks.  Django's `transaction.atomic` block is a single pure state
transform, so the all-or-nothing semantics of the block is reflected by
construction; every early `return Response(...)` before the block maps
to a branch that returns the state unchanged.
-/

namespace Ecom

/-- Python truthiness of a nullable integer column: `None` and `0` are falsy.
Models guards of the shape `if product.track_inventory and product.stock_quantity:`
(`views_cart.py:128,163,224`, `views_orders.py:115,166`). -/
def truthyInt : Option Int → Bool
  | none => false
  | some n => n != 0

/-- Integer value of a nullable stock column.  It is only consulted under a
`truthyInt` guard, where the column holds a nonzero integer. -/
def stockVal : Option Int → Int
  | none => 0
  | some n => n

/-- `EcommerceProduct` (`models.py:162`), restricted to the columns the
commerce pipeline reads: price, snapshot fields and the inventory columns. -/
structure Product where
  pid : Nat
  company : Nat
  name : String
  image : String
  sku : String
  price : ℚ
  in_stock : Bool
  stock_quantity : Option Int
  track_inventory : Bool
  deriving DecidableEq

/-- `CartItem` (`models.py:387`): product reference plus add-time snapshot.
The stored `subtotal` column is kept implicit: `CartItem.save`
(`models.py:418`) forces it to `price * quantity`, see `CartItem.subtotal`. -/
structure CartItem where
  product : Nat
  product_name : String
  product_image : String
  product_sku : String
  price : ℚ
  quantity : Int
  deriving DecidableEq

/-- `CartItem.save` (`models.py:418`): the stored `subtotal` column always
equals `price * quantity`. -/
def CartItem.subtotal (i : CartItem) : ℚ := i.price * i.quantity

/-- `Cart` (`models.py:286`). -/
structure Cart where
  cartId : Nat
  company : Nat
  user : Option Nat
  session_id : Option String
  items : List CartItem
  subtotal : ℚ
  shipping : ℚ
  tax : ℚ
  discount : ℚ
  total : ℚ
  delivery_method : Option String
  discount_code : Option String
  currency : String
  deriving DecidableEq

/-- `Cart._calculate_shipping` (`models.py:368`): free standard shipping at or
above the 200.00 threshold, otherwise `rates.get(delivery_method, Decimal('50.00'))`
with rates standard 50, express 100, same-day 150, pudo 40. -/
def calculate_shipping (subtotal : ℚ) (delivery_method : Option String) : ℚ :=
  if 200 ≤ subtotal ∧ delivery_method = some "standard" then 0
  else if delivery_method = some "standard" then 50
  else if delivery_method = some "express" then 100
  else if delivery_method = some "same-day" then 150
  else if delivery_method = some "pudo" then 40
  else 50

/-- `Cart.calculate_totals` (`models.py:344`): subtotal is the sum of the
stored line subtotals, shipping is recomputed from the new subtotal, tax is
15% VAT on `subtotal - discount`, total is `subtotal + shipping + tax -
discount`.  (The 30-day `expires_at` bookkeeping carries no money and is not
modelled.) -/
def Cart.calculate_totals (c : Cart) : Cart :=
  let sub := (c.items.map CartItem.subtotal).sum
  let ship := calculate_shipping sub c.delivery_method
  let tax := (sub - c.discount) * (15 / 100)
  { c with subtotal := sub, shipping := ship, tax := tax,
           total := sub + ship + tax - c.discount }

/-- `Order` (`models.py:424`), restricted to the columns the pipeline writes. -/
structure Order where
  oid : Nat
  order_number : String
  company : Nat
  customer : Option Nat
  session_id : Option String
  status : String
  subtotal : ℚ
  shipping : ℚ
  tax : ℚ
  discount : ℚ
  total : ℚ
  payment_method : String
  payment_status : String
  yoco_checkout_id : Option String
  yoco_payment_id : Option String
  transaction_id : Option String
  customer_first_name : String
  customer_last_name : String
  customer_email : String
  customer_phone : String
  shipping_address : String
  delivery_method : String
  pudo_pickup_point : String
  currency : String
  notes : String
  paid_at : Option Nat
  shipped_at : Option Nat
  delivered_at : Option Nat
  cancelled_at : Option Nat
  deriving DecidableEq

/-- `OrderItem` (`models.py:695`): immutable snapshot of a cart line.  As for
cart items, `OrderItem.save` (`models.py:724`) forces the stored subtotal to
`price * quantity`. -/
structure OrderItem where
  order : Nat
  product : Nat
  product_name : String
  product_image : String
  product_sku : String
  price : ℚ
  quantity : Int
  deriving DecidableEq

def OrderItem.subtotal (i : OrderItem) : ℚ := i.price * i.quantity

/-! ## Tenant resolution (`ecommerce/utils.py`) -/

/-- `EcommerceCompany` (`models.py:15`): owner plus declared member users
(the `users` many-to-many). -/
structure Company where
  cid : Nat
  owner : Nat
  members : List Nat
  deriving DecidableEq

/-- The authenticated principal attached to a request. -/
structure Principal where
  uid : Nat
  is_authenticated : Bool
  is_superuser : Bool
  deriving DecidableEq

/-- A request context as read by `get_company_from_request`: the caller, the
`X-Company-Id` header and the `company_id` query parameter. -/
structure RequestCtx where
  user : Principal
  header_company_id : Option Nat
  query_company_id : Option Nat
  deriving DecidableEq

/-- `get_user_company` (`utils.py:10`): first owned company, else first
membership company; `None` for unauthenticated callers and for superusers. -/
def get_user_company (companies : List Company) (u : Principal) : Option Company :=
  if u.is_authenticated = false then none
  else if u.is_superuser then none
  else
    match companies.find? (fun c => c.owner == u.uid) with
    | some c => some c
    | none => companies.find? (fun c => c.members.contains u.uid)

/-- `get_company_from_request` (`utils.py:34`).  Resolution order: explicit
header (honoured for superusers, owners and members, otherwise fall through),
superuser query parameter (an unknown id returns `None` here rather than
falling through), then `get_user_company`. -/
def get_company_from_request (companies : List Company) (req : RequestCtx) : Option Company :=
  if req.user.is_authenticated = false then none
  else
    let fallthrough :=
      if req.user.is_superuser then
        match req.query_company_id with
        | some qid => companies.find? (fun c => c.cid == qid)
        | none => get_user_company companies req.user
      else get_user_company companies req.user
    match req.header_company_id with
    | some hid =>
      match companies.find? (fun c => c.cid == hid) with
      | some c =>
        if req.user.is_superuser ∨ c.owner = req.user.uid ∨ c.members.contains req.user.uid
        then some c else fallthrough
      | none => fallthrough
    | none => fallthrough

/-- `OrderViewSet.get_queryset` (`views_orders.py:42`): start from
`Order.objects.all()` and filter by company only when one resolved.  (The
optional `status`/`customerId`/date query-parameter filters are absent in
every claim and are not modelled.) -/
def order_get_queryset (orders : List Order) (companies : List Company)
    (req : RequestCtx) : List Order :=
  match get_company_from_request companies req with
  | some c => orders.filter (fun o => o.company == c.cid)
  | none => orders

/-! ## Cart endpoints (`ecommerce/views_cart.py`) -/

/-- Outcome of a cart endpoint: an error envelope code, or the serialized
cart of the success envelope. -/
inductive CartResult where
  | err (code : String)
  | ok (c : Cart)
  deriving DecidableEq

/-- A brand-new cart, with the model-level column defaults
(`models.py:286`: zero money columns, currency `ZAR`, no delivery method)
and the `user`/`session_id` defaults passed by the view. -/
def newCart (cartId company : Nat) (user : Option Nat) (session_id : Option String) : Cart :=
  { cartId := cartId, company := company, user := user, session_id := session_id,
    items := [], subtotal := 0, shipping := 0, tax := 0, discount := 0, total := 0,
    delivery_method := none, discount_code := none, currency := "ZAR" }

/-- Replace the stored row of a saved cart (match on primary key). -/
def save_cart (carts : List Cart) (c : Cart) : List Cart :=
  carts.map (fun x => if x.cartId == c.cartId then c else x)

/-- `Cart.objects.get_or_create(company=company, defaults={'user': …,
'session_id': …})` (`views_cart.py:67,139`): the lookup is keyed by the
company alone — `user`/`session_id` only apply when a new row is created.
Returns the carts table, the cart, and the `created` flag. -/
def cart_get_or_create (carts : List Cart) (company : Nat) (user : Option Nat)
    (session_id : Option String) (freshId : Nat) : List Cart × Cart × Bool :=
  match carts.find? (fun c => c.company == company) with
  | some c => (carts, c, false)
  | none =>
    let c := newCart freshId company user session_id
    (carts ++ [c], c, true)

/-- `CartViewSet.get_my_cart` (`views_cart.py:53`): get-or-create by company,
re-key an existing cart when its `user`/`session_id` slot is empty, then
recompute totals and save. -/
def get_my_cart (carts : List Cart) (company : Option Nat) (user : Option Nat)
    (session_id : Option String) (freshId : Nat) : List Cart × CartResult :=
  match company with
  | none => (carts, .err "COMPANY_NOT_FOUND")
  | some cid =>
    let (carts1, cart, created) := cart_get_or_create carts cid user session_id freshId
    let cart1 :=
      if created = false then
        if user.isSome ∧ cart.user = none then
          { cart with user := user, session_id := none }
        else if user = none ∧ session_id.isSome ∧ cart.session_id = none then
          { cart with session_id := session_id }
        else cart
      else cart
    let cart2 := cart1.calculate_totals
    (save_cart carts1 cart2, .ok cart2)

/-- `CartViewSet.add_item` (`views_cart.py:92`): product lookup scoped to the
company, the `in_stock` gate, the truthiness-guarded stock check for the
requested quantity, get-or-create of cart and line, and the cumulative stock
check when the product is already in the cart. -/
def add_item (products : List Product) (carts : List Cart) (company : Option Nat)
    (user : Option Nat) (session_id : Option String) (product_id : Nat)
    (quantity : Int) (freshId : Nat) : List Cart × CartResult :=
  match company with
  | none => (carts, .err "COMPANY_NOT_FOUND")
  | some cid =>
    match products.find? (fun p => p.pid == product_id && p.company == cid) with
    | none => (carts, .err "PRODUCT_NOT_FOUND")
    | some product =>
      if product.in_stock = false then (carts, .err "OUT_OF_STOCK")
      else if product.track_inventory && truthyInt product.stock_quantity
              && decide (stockVal product.stock_quantity < quantity) then
        (carts, .err "INSUFFICIENT_STOCK")
      else
        let (carts1, cart, _) := cart_get_or_create carts cid user session_id freshId
        match cart.items.find? (fun ci => ci.product == product_id) with
        | none =>
          let item : CartItem :=
            { product := product_id, product_name := product.name,
              product_image := product.image, product_sku := product.sku,
              price := product.price, quantity := quantity }
          let cart1 := { cart with items := cart.items ++ [item] }.calculate_totals
          (save_cart carts1 cart1, .ok cart1)
        | some existing =>
          let new_quantity := existing.quantity + quantity
          if product.track_inventory && truthyInt product.stock_quantity
              && decide (stockVal product.stock_quantity < new_quantity) then
            (carts1, .err "INSUFFICIENT_STOCK")
          else
            let items1 := cart.items.map (fun ci =>
              if ci.product == product_id then { ci with quantity := new_quantity } else ci)
            let cart1 := { cart with items := items1 }.calculate_totals
            (save_cart carts1 cart1, .ok cart1)

/-! ## Cart-to-order conversion (`ecommerce/views_orders.py:69-178`) -/

/-- The commerce store state touched by checkout. -/
structure StoreState where
  products : List Product
  carts : List Cart
  orders : List Order
  order_items : List OrderItem
  next_order_id : Nat
  deriving DecidableEq

/-- Validated body of `CreateOrderSerializer` (`serializers.py:279`) plus the
request identity, as consumed by `create_from_cart`. -/
structure CheckoutInput where
  company : Option Nat
  user : Option Nat
  session_id : Option String
  customer_first_name : String
  customer_last_name : String
  customer_email : String
  customer_phone : String
  shipping_address : String
  delivery_method : String
  pudo_pickup_point : String
  notes : String
  deriving DecidableEq

/-- Outcome of `create_from_cart`: an error envelope code or the created order. -/
inductive CheckoutResult where
  | err (code : String)
  | ok (o : Order)
  deriving DecidableEq

/-- Cart lookup of `create_from_cart` (`views_orders.py:90-94`):
`Cart.objects.get(company=…, user=…)` for authenticated callers,
`Cart.objects.get(company=…, session_id=…)` otherwise. -/
def find_cart (carts : List Cart) (company : Nat) (user : Option Nat)
    (session_id : Option String) : Option Cart :=
  match user with
  | some uid => carts.find? (fun c => c.company == company && c.user == some uid)
  | none => carts.find? (fun c => c.company == company && c.session_id == session_id)

/-- Stock validation loop of `create_from_cart` (`views_orders.py:107-120`):
first failing line wins; `in_stock == False` yields `OUT_OF_STOCK`, a
truthiness-guarded quantity check yields `INSUFFICIENT_STOCK`.  A dangling
product reference cannot occur under foreign-key integrity; it is mapped to
a distinguished code so that the function stays total. -/
def validate_stock (products : List Product) : List CartItem → Option String
  | [] => none
  | item :: rest =>
    match products.find? (fun p => p.pid == item.product) with
    | none => some "DANGLING_PRODUCT"
    | some product =>
      if product.in_stock = false then some "OUT_OF_STOCK"
      else if product.track_inventory && truthyInt product.stock_quantity
              && decide (stockVal product.stock_quantity < item.quantity) then
        some "INSUFFICIENT_STOCK"
      else validate_stock products rest

/-- Inventory decrement for one order line (`views_orders.py:165-170`): under
the truthiness guard, subtract the ordered quantity and clear `in_stock` when
the result is `<= 0`. -/
def decrement_stock (products : List Product) (item : CartItem) : List Product :=
  products.map (fun p =>
    if p.pid == item.product && p.track_inventory && truthyInt p.stock_quantity then
      let q := stockVal p.stock_quantity - item.quantity
      { p with stock_quantity := some q, in_stock := if q ≤ 0 then false else p.in_stock }
    else p)

/-- The `transaction.atomic` block of `create_from_cart`
(`views_orders.py:123-175`): create the order with totals copied from the
cart (`Order.objects.create` passes no `order_number`, so the `CharField`
stores the empty string — the `generate_order_number` helper lives on
`CompanyIntegrationSettings`, models.py:668, and is never invoked here),
create one order item per cart line, decrement tracked stock, then delete
the cart items and recompute the now-empty cart's totals. -/
def checkout_atomic (s : StoreState) (cart : Cart) (inp : CheckoutInput)
    (company : Nat) : StoreState × Order :=
  let order : Order :=
    { oid := s.next_order_id, order_number := "", company := company,
      customer := inp.user, session_id := inp.session_id, status := "pending",
      subtotal := cart.subtotal, shipping := cart.shipping, tax := cart.tax,
      discount := cart.discount, total := cart.total,
      payment_method := "yoco", payment_status := "pending",
      yoco_checkout_id := none, yoco_payment_id := none, transaction_id := none,
      customer_first_name := inp.customer_first_name,
      customer_last_name := inp.customer_last_name,
      customer_email := inp.customer_email, customer_phone := inp.customer_phone,
      shipping_address := inp.shipping_address,
      delivery_method := inp.delivery_method,
      pudo_pickup_point := inp.pudo_pickup_point,
      currency := cart.currency, notes := inp.notes,
      paid_at := none, shipped_at := none, delivered_at := none, cancelled_at := none }
  let new_items := cart.items.map (fun ci =>
    { order := s.next_order_id, product := ci.product,
      product_name := ci.product_name, product_image := ci.product_image,
      product_sku := ci.product_sku, price := ci.price,
      quantity := ci.quantity : OrderItem })
  let products1 := cart.items.foldl decrement_stock s.products
  let cart1 := { cart with items := [] }.calculate_totals
  ({ products := products1,
     carts := save_cart s.carts cart1,
     orders := s.orders ++ [order],
     order_items := s.order_items ++ new_items,
     next_order_id := s.next_order_id + 1 }, order)

/-- `OrderViewSet.create_from_cart` (`views_orders.py:69-178`): company gate,
cart lookup, `CART_EMPTY` gate, per-line live stock validation, then the
atomic conversion.  Every failure path returns before any state mutation. -/
def create_from_cart (s : StoreState) (inp : CheckoutInput) : StoreState × CheckoutResult :=
  match inp.company with
  | none => (s, .err "COMPANY_NOT_FOUND")
  | some company =>
    match find_cart s.carts company inp.user inp.session_id with
    | none => (s, .err "CART_NOT_FOUND")
    | some cart =>
      if cart.items.length = 0 then (s, .err "CART_EMPTY")
      else
        match validate_stock s.products cart.items with
        | some code => (s, .err code)
        | none =>
          let (s1, order) := checkout_atomic s cart inp company
          (s1, .ok order)

/-- `CompanyIntegrationSettings.generate_order_number` (`models.py:668`):
`ORD-<year>-<zero-padded sequence>`, sequence taken from the largest existing
order number of the company for that year.  (In the source this helper —
and the `save` override that would call it — sit on
`CompanyIntegrationSettings`, not on `Order`, so no caller in the checkout
path ever reaches it.) -/
def pad4 (n : Nat) : String :=
  let s := toString n
  if 4 ≤ s.length then s else String.mk (List.replicate (4 - s.length) '0') ++ s

def max_string : List String → Option String
  | [] => none
  | h :: t => some (t.foldl (fun a b => if a < b then b else a) h)

def generate_order_number (orders : List Order) (company : Nat) (year : Nat) : String :=
  let pre := "ORD-" ++ toString year ++ "-"
  let numbers := (orders.filter
    (fun o => o.company == company && o.order_number.startsWith pre)).map
    (fun o => o.order_number)
  let sequence : Nat :=
    match max_string numbers with
    | none => 1
    | some last =>
      match ((last.splitOn "-").getLastD "").toNat? with
      | some k => k + 1
      | none => 1
  pre ++ pad4 sequence

/-! ## Manual order updates (`ecommerce/views_orders.py:200-262`) -/

/-- `OrderViewSet.update_status` (`views_orders.py:200-230`): set the
requested status (any of the serializer choices, `paid` included —
`serializers.py:290`), append the optional note, and stamp
`shipped_at`/`delivered_at`/`cancelled_at` when first reached.  No guard
compares amounts, and no branch stamps `paid_at`. -/
def update_status (o : Order) (new_status : String) (notes : String) (now : Nat) : Order :=
  let o1 := { o with status := new_status,
                     notes := if notes ≠ "" then o.notes ++ "\n" ++ notes else o.notes }
  if new_status = "shipped" ∧ o1.shipped_at = none then { o1 with shipped_at := some now }
  else if new_status = "delivered" ∧ o1.delivered_at = none then { o1 with delivered_at := some now }
  else if new_status = "cancelled" ∧ o1.cancelled_at = none then { o1 with cancelled_at := some now }
  else o1

/-- The `payment` dictionary of `UpdatePaymentSerializer` (`serializers.py:296`):
an absent key is `none`, meaning the order's current value is kept
(`payment_data.get(key, current)`). -/
structure PaymentPayload where
  status : Option String
  yocoPaymentId : Option String
  transactionId : Option String
  paidAt : Option Nat
  deriving DecidableEq

/-- `OrderViewSet.update_payment` (`views_orders.py:232-262`): copy the
payload fields over the order, stamp `paid_at` from the payload or — when the
new payment status is `completed` and `paid_at` is unset — from the clock,
and set the order status to the requested one.  No amount is received or
compared. -/
def update_payment (o : Order) (payment : PaymentPayload) (new_status : String)
    (now : Nat) : Order :=
  let ps := payment.status.getD o.payment_status
  let paid_at1 :=
    match payment.paidAt with
    | some t => some t
    | none => if ps = "completed" ∧ o.paid_at = none then some now else o.paid_at
  { o with payment_status := ps,
           yoco_payment_id := match payment.yocoPaymentId with
             | some v => some v
             | none => o.yoco_payment_id,
           transaction_id := match payment.transactionId with
             | some v => some v
             | none => o.transaction_id,
           paid_at := paid_at1,
           status := new_status }

/-! ## Yoco webhook handler (`ecommerce/views_yoco.py:117-223`) -/

/-- A decoded webhook body: `event` plus the `data` dictionary fields the
handler reads.  `amount` is the gateway's minor-unit (cent) integer;
`createdAt` is the parsed `paid_at` timestamp. -/
structure WebhookEvent where
  event : Option String
  checkoutId : Option String
  paymentId : Option String
  transactionId : Option String
  amount : Option Int
  createdAt : Option Nat
  deriving DecidableEq

/-- Outcome of `YocoService(order.company)` construction followed by
`verify_webhook_signature(request.body, signature)` (`views_yoco.py:151-155`):
the verification may return a boolean or raise. -/
inductive VerifyOutcome where
  | valid
  | invalid
  | raised
  deriving DecidableEq

/-- An HTTP response envelope: success flag, error code, HTTP status. -/
structure WebhookResponse where
  success : Bool
  code : Option String
  http : Nat
  deriving DecidableEq

/-- Replace the stored row of a saved order (match on primary key). -/
def save_order (orders : List Order) (o : Order) : List Order :=
  orders.map (fun x => if x.oid == o.oid then o else x)

/-- The order-update block of the `payment.succeeded` branch
(`views_yoco.py:196-204`): payment status `completed`, order status `paid`,
gateway payment and transaction ids recorded, `paid_at` from the payload's
`createdAt` or else the clock. -/
def webhook_mark_paid (order : Order) (paymentId transactionId : Option String)
    (createdAt : Option Nat) (now : Nat) : Order :=
  { order with payment_status := "completed", status := "paid",
               yoco_payment_id := paymentId, transaction_id := transactionId,
               paid_at := some (createdAt.getD now) }

/-- `YocoWebhookViewSet.handle_webhook` (`views_yoco.py:124-223`).  Missing
`checkoutId` fails `INVALID_WEBHOOK`; an unknown checkout id fails
`ORDER_NOT_FOUND`; a verification that returns `False` fails
`WEBHOOK_VERIFICATION_FAILED` (401) while a verification that raises is
logged and processing continues (`views_yoco.py:161-164`).  On
`payment.succeeded` the payload amount (cents divided by 100) is compared
against the order total — the source compares the two as Python floats,
which for amounts on the cent grid below the float-precision bound agrees
exactly with rational equality, so the comparison is embedded as equality
in `ℚ` — and on success the payment fields, `paid`, and `paid_at` are
written.  On `payment.failed` the payment status is set to `failed`. -/
def handle_webhook (orders : List Order) (ev : WebhookEvent)
    (verify : VerifyOutcome) (now : Nat) : List Order × WebhookResponse :=
  match ev.checkoutId with
  | none => (orders, ⟨false, some "INVALID_WEBHOOK", 400⟩)
  | some cid =>
    match orders.find? (fun o => o.yoco_checkout_id == some cid) with
    | none => (orders, ⟨false, some "ORDER_NOT_FOUND", 404⟩)
    | some _ =>
      if verify = .invalid then
        (orders, ⟨false, some "WEBHOOK_VERIFICATION_FAILED", 401⟩)
      else if ev.event = some "payment.succeeded" then
        match orders.find? (fun o => o.yoco_checkout_id == some cid) with
        | none => (orders, ⟨false, some "ORDER_NOT_FOUND", 404⟩)
        | some order =>
          let amount : ℚ := ((ev.amount.getD 0 : Int) : ℚ) / 100
          if amount ≠ order.total then
            (orders, ⟨false, some "AMOUNT_MISMATCH", 400⟩)
          else
            let order1 := webhook_mark_paid order ev.paymentId ev.transactionId ev.createdAt now
            (save_order orders order1, ⟨true, none, 200⟩)
      else if ev.event = some "payment.failed" then
        match orders.find? (fun o => o.yoco_checkout_id == some cid) with
        | none => (orders, ⟨true, none, 200⟩)
        | some order =>
          (save_order orders { order with payment_status := "failed" }, ⟨true, none, 200⟩)
      else (orders, ⟨true, none, 200⟩)

/-! ## Yoco checkout sessions (`services/yoco_service.py:62-128`, `views_yoco.py:22-86`)

The source converts the order total to gateway cents with
`int(float(order.total) * 100)` (`yoco_service.py:88`): the `Decimal` total
is first converted to an IEEE-754 binary64 value, that value is multiplied
by 100 in binary64 arithmetic, and the product is truncated toward zero.
The model below reproduces binary64 round-to-nearest, ties-to-even on
positive values at or above 1 exactly, with integer arithmetic. -/

/-- Fuel-driven binary logarithm: `log2floorAux n n` is the floor of the base-2
logarithm for `n ≥ 1` (the fuel `n` dominates the number of halvings). -/
def log2floorAux : Nat → Nat → Nat
  | 0, _ => 0
  | fuel + 1, n => if n ≤ 1 then 0 else log2floorAux fuel (n / 2) + 1

def log2floor (n : Nat) : Nat := log2floorAux n n

/-- Nearest integer to `a / b` for `b > 0`, ties to even. -/
def roundHalfEvenInt (a b : ℤ) : ℤ :=
  let n := Int.ediv a b
  let r := Int.emod a b
  if 2 * r < b then n
  else if b < 2 * r then n + 1
  else if Int.emod n 2 = 0 then n else n + 1

/-- Nearest binary64 value of the positive fraction `a / b`, returned as an
exact fraction (numerator, denominator).  Defined for values `≥ 1` — every
amount this model is applied to (order totals in rand and their cent
multiples) lies in the binary64 normal range well below `2^53`; values
below 1 are returned unchanged (unused by the claims). -/
def floatRoundPair (a b : ℤ) : ℤ × ℤ :=
  if a < b then (a, b)
  else
    let e := log2floor (Int.ediv a b).toNat
    let m := roundHalfEvenInt (a * 2 ^ 52) (b * 2 ^ e)
    (m * 2 ^ e, 2 ^ 52)

/-- `int(float(a/b) * 100)` for a positive decimal `a/b`:
binary64-round the fraction, multiply by 100 with a binary64 rounding of the
product, then truncate. -/
def py_int_float_100 (a b : ℤ) : ℤ :=
  let f := floatRoundPair a b
  let g := floatRoundPair (f.1 * 100) f.2
  Int.ediv g.1 g.2

/-- `amount_cents = int(float(order.total) * 100)` (`yoco_service.py:88`). -/
def amount_cents (total : ℚ) : ℤ := py_int_float_100 total.num total.den

/-- Yoco credentials of a company's `CompanyIntegrationSettings`
(`models.py:650`). -/
structure YocoCredentials where
  secret_key : Option String
  public_key : Option String
  webhook_secret : Option String
  sandbox_mode : Bool
  deriving DecidableEq

/-- The checkout payload posted to the gateway (`yoco_service.py:90-101`):
amount in cents, `order.currency or 'ZAR'`, redirect URLs. -/
structure YocoPayload where
  amount : ℤ
  currency : String
  successUrl : String
  cancelUrl : String
  deriving DecidableEq

def checkout_payload (order : Order) (success_url cancel_url : String) : YocoPayload :=
  { amount := amount_cents order.total,
    currency := if order.currency = "" then "ZAR" else order.currency,
    successUrl := success_url, cancelUrl := cancel_url }

/-- Outcome of the outbound `requests.post` to the gateway. -/
inductive GatewayReply where
  | ok (checkoutId : String) (redirectUrl : Option String)
  | transportError
  deriving DecidableEq

/-- The success envelope of `create_checkout_session`. -/
structure CheckoutData where
  checkoutId : String
  redirectUrl : String
  orderId : Nat
  deriving DecidableEq

/-- `YocoService.create_checkout_session` (`yoco_service.py:62-128`): a
missing secret key raises `ValueError` before any request; a transport error
is re-raised as `ValueError` after the request; only on a successful gateway
response is the returned checkout id written to the order
(`order.save(update_fields=['yoco_checkout_id'])`, line 116). -/
def create_checkout_session (creds : YocoCredentials) (order : Order)
    (success_url cancel_url : String) (reply : GatewayReply) :
    Except String (Order × CheckoutData) :=
  if creds.secret_key = none then .error "VALUE_ERROR_NOT_CONFIGURED"
  else
    let _payload := checkout_payload order success_url cancel_url
    match reply with
    | .transportError => .error "VALUE_ERROR_REQUEST_FAILED"
    | .ok cid redirect =>
      let order1 := { order with yoco_checkout_id := some cid }
      .ok (order1,
        { checkoutId := cid,
          redirectUrl := redirect.getD ("https://payments.yoco.com/checkout/" ++ cid),
          orderId := order.oid })

/-- `YocoViewSet.create_checkout` (`views_yoco.py:29-86`): company gate, order
lookup scoped to the company, the `pending`-status gate (any other status
fails `ORDER_ALREADY_PAID` before the service is even constructed), then the
service call; `ValueError` from the service maps to `YOCO_CONFIG_ERROR` (400)
with the order table unchanged. -/
def create_checkout (orders : List Order) (company : Option Nat) (order_id : Nat)
    (creds : YocoCredentials) (success_url cancel_url : String)
    (reply : GatewayReply) : List Order × Except (String × Nat) CheckoutData :=
  match company with
  | none => (orders, .error ("COMPANY_NOT_FOUND", 400))
  | some cid =>
    match orders.find? (fun o => o.oid == order_id && o.company == cid) with
    | none => (orders, .error ("ORDER_NOT_FOUND", 404))
    | some order =>
      if order.status ≠ "pending" then (orders, .error ("ORDER_ALREADY_PAID", 400))
      else
        match create_checkout_session creds order success_url cancel_url reply with
        | .error _ => (orders, .error ("YOCO_CONFIG_ERROR", 400))
        | .ok (order1, data) => (save_order orders order1, .ok data)

/-! ## Helper projections -/

/-- The order number carried by a successful checkout outcome. -/
def CheckoutResult.order_number_of : CheckoutResult → Option String
  | .ok o => some o.order_number
  | .err _ => none

/-- Whether a cart endpoint outcome is an error envelope. -/
def CartResult.isError : CartResult → Bool
  | .err _ => true
  | .ok _ => false

/-! ## Concrete fixtures used by scenario theorems and witnesses -/

/-- Scenario A/B cart (spec §8): two units of a 50.00 product. -/
def scenario_cart (method : String) : Cart :=
  { cartId := 1, company := 1, user := some 1, session_id := none,
    items := [{ product := 1, product_name := "P", product_image := "img",
                product_sku := "S", price := 50, quantity := 2 }],
    subtotal := 0, shipping := 0, tax := 0, discount := 0, total := 0,
    delivery_method := some method, discount_code := none, currency := "ZAR" }

/-- Scenario C fixture: a tracked product with stock 10 and a cart asking for
11 units of it. -/
def c1_product : Product :=
  { pid := 1, company := 1, name := "W", image := "i", sku := "S", price := 50,
    in_stock := true, stock_quantity := some 10, track_inventory := true }

def c1_item : CartItem :=
  { product := 1, product_name := "W", product_image := "i", product_sku := "S",
    price := 50, quantity := 11 }

def c1_cart : Cart :=
  { cartId := 3, company := 1, user := some 1, session_id := none,
    items := [c1_item], subtotal := 550, shipping := 50, tax := 82.5,
    discount := 0, total := 682.5, delivery_method := some "standard",
    discount_code := none, currency := "ZAR" }

def c1_state : StoreState :=
  { products := [c1_product], carts := [c1_cart], orders := [], order_items := [],
    next_order_id := 1 }

def c1_input : CheckoutInput :=
  { company := some 1, user := some 1, session_id := none,
    customer_first_name := "A", customer_last_name := "B",
    customer_email := "a@b.c", customer_phone := "", shipping_address := "addr",
    delivery_method := "standard", pudo_pickup_point := "", notes := "" }

/-- Fixture: user 1's existing cart in company 1. -/
def c4_cart_user1 : Cart :=
  { cartId := 7, company := 1, user := some 1, session_id := none,
    items := [], subtotal := 0, shipping := 0, tax := 0, discount := 0,
    total := 0, delivery_method := none, discount_code := none, currency := "ZAR" }

/-- Fixture for order-number claims: an untracked product and one cart per
each of two users of the same company, ready for two consecutive checkouts. -/
def c8_product : Product :=
  { pid := 2, company := 1, name := "G", image := "i", sku := "", price := 30,
    in_stock := true, stock_quantity := none, track_inventory := false }

def c8_item : CartItem :=
  { product := 2, product_name := "G", product_image := "i", product_sku := "",
    price := 30, quantity := 1 }

def c8_cartA : Cart :=
  { cartId := 11, company := 1, user := some 1, session_id := none,
    items := [c8_item], subtotal := 30, shipping := 50, tax := 4.5,
    discount := 0, total := 84.5, delivery_method := some "standard",
    discount_code := none, currency := "ZAR" }

def c8_cartB : Cart :=
  { c8_cartA with cartId := 12, user := some 2 }

def c8_state : StoreState :=
  { products := [c8_product], carts := [c8_cartA, c8_cartB], orders := [],
    order_items := [], next_order_id := 1 }

def c8_inputA : CheckoutInput :=
  { company := some 1, user := some 1, session_id := none,
    customer_first_name := "A", customer_last_name := "A",
    customer_email := "a@x.y", customer_phone := "", shipping_address := "s",
    delivery_method := "standard", pudo_pickup_point := "", notes := "" }

def c8_inputB : CheckoutInput :=
  { c8_inputA with user := some 2, customer_first_name := "B" }

/-- Fixture for webhook claims: a pending order with checkout session
`chk_1` and total 100.00, and a `payment.succeeded` event reporting 9900
cents. -/
def c2_order : Order :=
  { oid := 21, order_number := "", company := 1, customer := some 1,
    session_id := none, status := "pending", subtotal := 100, shipping := 0,
    tax := 0, discount := 0, total := 100, payment_method := "yoco",
    payment_status := "pending", yoco_checkout_id := some "chk_1",
    yoco_payment_id := none, transaction_id := none,
    customer_first_name := "A", customer_last_name := "B",
    customer_email := "a@b.c", customer_phone := "", shipping_address := "s",
    delivery_method := "standard", pudo_pickup_point := "", currency := "ZAR",
    notes := "", paid_at := none, shipped_at := none, delivered_at := none,
    cancelled_at := none }

def c2_event : WebhookEvent :=
  { event := some "payment.succeeded", checkoutId := some "chk_1",
    paymentId := some "pay_1", transactionId := some "txn_1",
    amount := some 9900, createdAt := some 77 }

/-- Fixture: a stock-tracked product whose stock quantity is 0 while its
`in_stock` flag is still true. -/
def c6_product_zero : Product :=
  { pid := 5, company := 1, name := "Z", image := "i", sku := "", price := 20,
    in_stock := true, stock_quantity := some 0, track_inventory := true }

/-- A minimal order row: only the identifiers are significant. -/
def plain_order (oid cid : Nat) : Order :=
  { oid := oid, order_number := "", company := cid, customer := none,
    session_id := none, status := "pending", subtotal := 0, shipping := 0,
    tax := 0, discount := 0, total := 0, payment_method := "yoco",
    payment_status := "pending", yoco_checkout_id := none,
    yoco_payment_id := none, transaction_id := none, customer_first_name := "",
    customer_last_name := "", customer_email := "", customer_phone := "",
    shipping_address := "", delivery_method := "standard",
    pudo_pickup_point := "", currency := "ZAR", notes := "", paid_at := none,
    shipped_at := none, delivered_at := none, cancelled_at := none }

/-- Tenant-resolution fixtures: company 1 owned by user 10, company 2 owned
by user 20, no declared members; user 30 owns and belongs to nothing. -/
def c7_companies : List Company := [⟨1, 10, []⟩, ⟨2, 20, []⟩]

def c7_req_no_tenant : RequestCtx :=
  { user := ⟨30, true, false⟩, header_company_id := none, query_company_id := none }

/-- User 10 (owner of company 1 only) sending a header for company 2. -/
def c7_req_foreign_header : RequestCtx :=
  { user := ⟨10, true, false⟩, header_company_id := some 2, query_company_id := none }

/-- User 20 (owner of company 2) sending a header for company 2. -/
def c7_req_own_header : RequestCtx :=
  { user := ⟨20, true, false⟩, header_company_id := some 2, query_company_id := none }

/-- Yoco fixtures: configured credentials, a paid order, a pending order
with total 4.35. -/
def c9_creds : YocoCredentials :=
  { secret_key := some "sk", public_key := some "pk",
    webhook_secret := some "ws", sandbox_mode := true }

def c9_order_paid : Order := { plain_order 41 1 with status := "paid", total := 100 }

def c9_order_pending : Order := { plain_order 42 1 with total := (87 / 20 : ℚ) }

/-! ## C3 — cart totals formula -/

/-- **C3.** After every cart mutation the recomputed totals satisfy
`subtotal = Σ (line price × line quantity)`; shipping is 0 for standard
delivery at or above the 200.00 threshold and otherwise the per-method rate
(standard 50, express 100, same-day 150, pudo 40, default 50);
`tax = (subtotal − discount) × 0.15`; `total = subtotal + shipping + tax −
discount`.  A cart with 2 units of a 50.00 product yields subtotal 100,
shipping 50 (standard) or 40 (pudo), tax 15, and total 165 (standard) or
155 (pudo). -/
theorem cart_totals_formula :
    (∀ c : Cart,
      (c.calculate_totals).subtotal = (c.items.map (fun l => l.price * (l.quantity : ℚ))).sum ∧
      (c.calculate_totals).shipping =
        (if 200 ≤ (c.calculate_totals).subtotal ∧ c.delivery_method = some "standard" then 0
         else if c.delivery_method = some "standard" then 50
         else if c.delivery_method = some "express" then 100
         else if c.delivery_method = some "same-day" then 150
         else if c.delivery_method = some "pudo" then 40 else 50) ∧
      (c.calculate_totals).tax = ((c.calculate_totals).subtotal - c.discount) * (15 / 100) ∧
      (c.calculate_totals).total =
        (c.calculate_totals).subtotal + (c.calculate_totals).shipping +
          (c.calculate_totals).tax - c.discount) ∧
    ((scenario_cart "standard").calculate_totals.subtotal = 100 ∧
     (scenario_cart "standard").calculate_totals.shipping = 50 ∧
     (scenario_cart "standard").calculate_totals.tax = 15 ∧
     (scenario_cart "standard").calculate_totals.total = 165) ∧
    ((scenario_cart "pudo").calculate_totals.shipping = 40 ∧
     (scenario_cart "pudo").calculate_totals.tax = 15 ∧
     (scenario_cart "pudo").calculate_totals.total = 155) := by
  refine ⟨fun c => ⟨rfl, ?_, rfl, rfl⟩, ?_, ?_⟩
  · simp only [Cart.calculate_totals, calculate_shipping, CartItem.subtotal]
  · refine ⟨?_, ?_, ?_, ?_⟩ <;>
      · simp [scenario_cart, Cart.calculate_totals, calculate_shipping, CartItem.subtotal]
        try norm_num
  · refine ⟨?_, ?_, ?_⟩ <;>
      · simp [scenario_cart, Cart.calculate_totals, calculate_shipping, CartItem.subtotal]
        try norm_num

/-! ## C1 — checkout aborts on validation failure without touching state -/

/-- **C1.** Every failing `create-from-cart` call returns its error with the
store state unchanged — no order, no order items, no stock mutation, no cart
clearing (every validation failure returns before the atomic block, and the
atomic block itself is a single all-or-nothing transform).  In particular a
first cart line whose tracked nonzero stock is below the requested quantity
fails `INSUFFICIENT_STOCK` with the state untouched. -/
theorem checkout_validation_abort :
    (∀ (s : StoreState) (inp : CheckoutInput) (code : String),
       (create_from_cart s inp).2 = .err code → (create_from_cart s inp).1 = s) ∧
    (∀ (s : StoreState) (inp : CheckoutInput) (company : Nat) (cart : Cart)
       (item : CartItem) (rest : List CartItem) (p : Product) (n : Int),
       inp.company = some company →
       find_cart s.carts company inp.user inp.session_id = some cart →
       cart.items = item :: rest →
       s.products.find? (fun q => q.pid == item.product) = some p →
       p.in_stock = true → p.track_inventory = true → p.stock_quantity = some n →
       n ≠ 0 → n < item.quantity →
       create_from_cart s inp = (s, .err "INSUFFICIENT_STOCK")) := by
  constructor
  · intro s inp code h
    unfold create_from_cart at h ⊢
    rcases hc : inp.company with _ | company <;> simp only [hc] at h ⊢
    rcases hf : find_cart s.carts company inp.user inp.session_id with _ | cart <;>
      simp only [hf] at h ⊢
    by_cases hl : cart.items.length = 0 <;> simp only [hl, if_true, if_false, reduceIte] at h ⊢
    rcases hv : validate_stock s.products cart.items with _ | code1 <;>
      simp only [hv] at h ⊢
    simp at h
  · intro s inp company cart item rest p n hc hf hi hp hin htr hsq hn hlt
    unfold create_from_cart
    simp only [hc, hf, hi]
    have hlen : (item :: rest).length = 0 ↔ False := by simp
    simp only [List.length_cons, Nat.succ_ne_zero, if_false, reduceIte]
    have hv : validate_stock s.products (item :: rest) = some "INSUFFICIENT_STOCK" := by
      unfold validate_stock
      simp only [hp, hin, htr, hsq, truthyInt, stockVal]
      have h1 : (n != 0) = true := by simpa using hn
      simp [h1, hlt]
    simp only [hv]

/-- Witness for C1: quantity 11 against tracked stock 10 is rejected with
`INSUFFICIENT_STOCK` and the store state is returned unchanged. -/
theorem checkout_validation_abort_witness :
    create_from_cart c1_state c1_input = (c1_state, .err "INSUFFICIENT_STOCK") :=
  checkout_validation_abort.2 c1_state c1_input 1 c1_cart c1_item [] c1_product 10
    rfl rfl rfl rfl rfl rfl rfl (by decide) (by decide)

/-! ## C4 — cart identity scoping -/

/-- **C4 (failing-input evaluation).**  The claim says two distinct
identities of the same tenant always obtain distinct carts.  In the code
`Cart.objects.get_or_create(company=company, defaults=…)`
(`views_cart.py:67`) keys the lookup by company alone, so when user 2 calls
`GET /carts/me` against a tenant whose only cart belongs to user 1, the
endpoint returns user 1's cart (still owned by user 1) to user 2, and no new
cart is created. -/
theorem get_my_cart_cross_identity :
    (get_my_cart [c4_cart_user1] (some 1) (some 2) none 99).2
        = .ok (c4_cart_user1.calculate_totals) ∧
    (get_my_cart [c4_cart_user1] (some 1) (some 2) none 99).1
        = [c4_cart_user1.calculate_totals] ∧
    c4_cart_user1.user = some 1 ∧
    (c4_cart_user1.calculate_totals).user = some 1 ∧
    (c4_cart_user1.calculate_totals).cartId = 7 := by
  refine ⟨?_, ?_, rfl, rfl, rfl⟩ <;>
    · simp [get_my_cart, cart_get_or_create, save_cart, c4_cart_user1,
        Cart.calculate_totals]

/-! ## C8 — order numbers -/

/-- **C8 (failing-input evaluation).**  The claim says every order created by
cart conversion carries a distinct `ORD-<year>-<seq>` number.  In the code
`Order.objects.create` (`views_orders.py:130`) passes no `order_number`, and
the `generate_order_number` helper together with the `save` override that
would invoke it sit on `CompanyIntegrationSettings` (`models.py:668-692`),
not on `Order` — so two consecutive checkouts for the same company both
produce orders whose number is the empty string (equal, and violating the
`unique_together [company, order_number]` constraint of `models.py:521`),
while the dormant generator would have produced `ORD-2025-0001`. -/
theorem order_numbers_never_generated :
    ((create_from_cart c8_state c8_inputA).2).order_number_of = some "" ∧
    ((create_from_cart (create_from_cart c8_state c8_inputA).1 c8_inputB).2).order_number_of
      = some "" ∧
    generate_order_number [] 1 2025 = "ORD-2025-0001" :=
  ⟨rfl, rfl, rfl⟩

/-! ## C2 — webhook amount integrity -/

/-- **C2.**  For a `payment.succeeded` event whose checkout-session id
matches an order and whose signature verification succeeds: if the payload
amount (cents over 100) differs from the order's frozen total the handler
returns `AMOUNT_MISMATCH` with HTTP 400 and the order table is unchanged (in
particular status and payment status are untouched); if it matches, the
handler marks the payment `completed`, the order `paid`, stamps `paid_at`
and records the gateway payment and transaction ids. -/
theorem webhook_amount_integrity :
    ∀ (orders : List Order) (ev : WebhookEvent) (now : Nat) (cid : String) (order : Order),
      ev.event = some "payment.succeeded" →
      ev.checkoutId = some cid →
      orders.find? (fun o => o.yoco_checkout_id == some cid) = some order →
      ((((ev.amount.getD 0 : Int) : ℚ) / 100 ≠ order.total →
          handle_webhook orders ev .valid now
            = (orders, ⟨false, some "AMOUNT_MISMATCH", 400⟩)) ∧
       (((ev.amount.getD 0 : Int) : ℚ) / 100 = order.total →
          handle_webhook orders ev .valid now
            = (save_order orders
                 (webhook_mark_paid order ev.paymentId ev.transactionId ev.createdAt now),
               ⟨true, none, 200⟩))) := by
  intro orders ev now cid order hev hcid hfind
  unfold handle_webhook
  simp only [hcid, hfind, hev]
  constructor
  · intro hne
    simp [hne]
  · intro heq
    simp [heq]

/-- Witness for C2: the mismatch branch at a concrete order — total 100.00,
payload amount 9900 cents — yields `AMOUNT_MISMATCH` and leaves the table
unchanged. -/
theorem webhook_amount_integrity_witness :
    handle_webhook [c2_order] c2_event .valid 5
      = ([c2_order], ⟨false, some "AMOUNT_MISMATCH", 400⟩) :=
  (webhook_amount_integrity [c2_order] c2_event 5 "chk_1" c2_order rfl rfl rfl).1
    (by norm_num [c2_event, c2_order])

/-! ## C5 — paths into the `paid` status -/

/-- **C5 (counterexample).**  The claim says an order moves from `pending` to
`paid` only through a verified webhook or a payment update with matching
total, stamping `paid_at`.  But `PUT /orders/{id}/status` with body status
`paid` (an allowed serializer choice, `serializers.py:290`) moves a concrete
pending order straight to `paid` — the endpoint receives no amount at all —
and leaves `paid_at` unset. -/
theorem update_status_reaches_paid_unchecked :
    c2_order.status = "pending" ∧ c2_order.paid_at = none ∧
    (update_status c2_order "paid" "" 9).status = "paid" ∧
    (update_status c2_order "paid" "" 9).paid_at = none :=
  ⟨rfl, rfl, rfl, rfl⟩

/-- **C5 (amended).**  The webhook path is guarded: whenever a paid order
appears in the handler's output table that was not paid before, the
verification did not return `false`, the event is `payment.succeeded`, the
payload amount equals the order's total, and `paid_at` is stamped.  But the
manual endpoints are not: `update_status` sets `paid` on request without any
amount comparison and without stamping `paid_at`, and `update_payment` sets
whatever status the payload requests, also without any amount comparison. -/
theorem paid_transition_paths :
    (∀ (o : Order) (notes : String) (t : Nat),
       (update_status o "paid" notes t).status = "paid" ∧
       (update_status o "paid" notes t).paid_at = o.paid_at) ∧
    (∀ (o : Order) (p : PaymentPayload) (st : String) (t : Nat),
       (update_payment o p st t).status = st) ∧
    (∀ (orders : List Order) (ev : WebhookEvent) (ver : VerifyOutcome) (now : Nat)
       (o1 : Order),
       (∀ o ∈ orders, o.status ≠ "paid") →
       o1 ∈ (handle_webhook orders ev ver now).1 → o1.status = "paid" →
       ver ≠ .invalid ∧ ev.event = some "payment.succeeded" ∧
       ((ev.amount.getD 0 : Int) : ℚ) / 100 = o1.total ∧ o1.paid_at ≠ none) := by
  refine ⟨fun o notes t => ?_, fun o p st t => ?_, ?_⟩
  · constructor <;> simp [update_status]
  · simp [update_payment]
  · intro orders ev ver now o1 hall hmem hpaid
    unfold handle_webhook at hmem
    rcases hcid : ev.checkoutId with _ | cid <;> simp only [hcid] at hmem
    · exact absurd hpaid (hall o1 hmem)
    rcases hfind : orders.find? (fun o => o.yoco_checkout_id == some cid) with _ | order <;>
      simp only [hfind] at hmem
    · exact absurd hpaid (hall o1 hmem)
    by_cases hv : ver = .invalid
    · simp only [hv, if_pos rfl, reduceIte] at hmem
      exact absurd hpaid (hall o1 hmem)
    simp only [if_neg hv] at hmem
    by_cases hev : ev.event = some "payment.succeeded"
    · simp only [if_pos hev, hfind] at hmem
      by_cases hne : ((ev.amount.getD 0 : Int) : ℚ) / 100 ≠ order.total
      · simp only [if_pos hne] at hmem
        exact absurd hpaid (hall o1 hmem)
      · simp only [if_neg hne] at hmem
        simp only [save_order, List.mem_map] at hmem
        obtain ⟨x, hx, hxe⟩ := hmem
        by_cases hxo : (x.oid == (webhook_mark_paid order ev.paymentId ev.transactionId
            ev.createdAt now).oid) = true
        · rw [if_pos hxo] at hxe
          subst hxe
          refine ⟨hv, hev, ?_, ?_⟩
          · have htot : (webhook_mark_paid order ev.paymentId ev.transactionId
                ev.createdAt now).total = order.total := rfl
            rw [htot]
            exact not_not.mp hne
          · simp [webhook_mark_paid]
        · rw [if_neg hxo] at hxe
          subst hxe
          exact absurd hpaid (hall x hx)
    · simp only [if_neg hev] at hmem
      by_cases hef : ev.event = some "payment.failed"
      · simp only [if_pos hef, hfind] at hmem
        simp only [save_order, List.mem_map] at hmem
        obtain ⟨x, hx, hxe⟩ := hmem
        by_cases hxo : (x.oid == ({ order with payment_status := "failed" } : Order).oid) = true
        · rw [if_pos hxo] at hxe
          subst hxe
          have hst : ({ order with payment_status := "failed" } : Order).status
              = order.status := rfl
          rw [hst] at hpaid
          exact absurd hpaid (hall order (List.mem_of_find?_eq_some hfind))
        · rw [if_neg hxo] at hxe
          subst hxe
          exact absurd hpaid (hall x hx)
      · simp only [if_neg hef] at hmem
        exact absurd hpaid (hall o1 hmem)

/-- The matching-amount companion event to `c2_event`: 10000 cents against a
100.00 total. -/
def c5_event : WebhookEvent :=
  { c2_event with amount := some 10000 }

/-- The order `c2_order` as marked paid by the webhook update block. -/
def c5_paid_order : Order :=
  webhook_mark_paid c2_order (some "pay_1") (some "txn_1") (some 77) 9

/-- Witness for the amended C5: a concrete verified `payment.succeeded` event
with matching amount produces a paid order, and the theorem's guard facts
hold of it. -/
theorem paid_transition_paths_witness :
    (∀ o ∈ [c2_order], o.status ≠ "paid") ∧
    c5_paid_order ∈ (handle_webhook [c2_order] c5_event .valid 9).1 ∧
    c5_paid_order.status = "paid" ∧
    (VerifyOutcome.valid ≠ .invalid ∧ c5_event.event = some "payment.succeeded" ∧
     ((c5_event.amount.getD 0 : Int) : ℚ) / 100 = c5_paid_order.total ∧
     c5_paid_order.paid_at ≠ none) := by
  have h1 : ∀ o ∈ [c2_order], o.status ≠ "paid" := by simp [c2_order]
  have hres : (handle_webhook [c2_order] c5_event .valid 9).1 = [c5_paid_order] := by
    unfold handle_webhook
    norm_num [c5_event, c2_event, c2_order, save_order, webhook_mark_paid, c5_paid_order]
    rw [if_neg (fun h => VerifyOutcome.noConfusion h)]
  have h2 : c5_paid_order ∈ (handle_webhook [c2_order] c5_event .valid 9).1 := by
    rw [hres]; exact List.mem_singleton.mpr rfl
  exact ⟨h1, h2, rfl, paid_transition_paths.2.2 [c2_order] c5_event .valid 9
    c5_paid_order h1 h2 rfl⟩

/-! ## C6 — insufficient-stock rules -/

/-- **C6 (counterexample).**  The claim says a tracked product with stock 0
whose `in_stock` flag is still true is rejected with `INSUFFICIENT_STOCK`.
In the code the quantity check sits under the truthiness guard
`if product.track_inventory and product.stock_quantity:` (`views_cart.py:128`),
and `0` is falsy in Python, so a request for 1 unit of such a product is
accepted without error. -/
theorem add_item_zero_stock_bypass :
    c6_product_zero.track_inventory = true ∧
    c6_product_zero.stock_quantity = some 0 ∧
    c6_product_zero.in_stock = true ∧
    ((add_item [c6_product_zero] [] (some 1) (some 1) none 5 1 50).2).isError = false :=
  ⟨rfl, rfl, rfl, rfl⟩

/-- **C6 (amended).**  `add_item` fails `INSUFFICIENT_STOCK` exactly under
the coded guard: stock tracking on **and a set, nonzero stock quantity**
below the requested quantity (or, for a product already in the cart, below
the cumulative quantity); a tracked product whose stock quantity is 0 (still
flagged in stock) bypasses the quantity check entirely and is added; and
checkout re-validates every cart line by the same rules against the current
product state — `OUT_OF_STOCK` when the availability flag is clear,
`INSUFFICIENT_STOCK` when a set, nonzero stock quantity is below the line
quantity. -/
theorem insufficient_stock_rules :
    (∀ (products : List Product) (carts : List Cart) (cid : Nat) (user : Option Nat)
       (session : Option String) (pid : Nat) (q : Int) (fresh : Nat)
       (p : Product) (n : Int),
       products.find? (fun x => x.pid == pid && x.company == cid) = some p →
       p.in_stock = true → p.track_inventory = true → p.stock_quantity = some n →
       n ≠ 0 → n < q →
       add_item products carts (some cid) user session pid q fresh
         = (carts, .err "INSUFFICIENT_STOCK")) ∧
    (∀ (products : List Product) (carts : List Cart) (cid : Nat) (user : Option Nat)
       (session : Option String) (pid : Nat) (q : Int) (fresh : Nat)
       (p : Product) (n : Int) (cart : Cart) (existing : CartItem),
       products.find? (fun x => x.pid == pid && x.company == cid) = some p →
       p.in_stock = true → p.track_inventory = true → p.stock_quantity = some n →
       n ≠ 0 → ¬ n < q →
       carts.find? (fun c => c.company == cid) = some cart →
       cart.items.find? (fun ci => ci.product == pid) = some existing →
       n < existing.quantity + q →
       add_item products carts (some cid) user session pid q fresh
         = (carts, .err "INSUFFICIENT_STOCK")) ∧
    (∀ (products : List Product) (carts : List Cart) (cid : Nat) (user : Option Nat)
       (session : Option String) (pid : Nat) (q : Int) (fresh : Nat) (p : Product),
       products.find? (fun x => x.pid == pid && x.company == cid) = some p →
       p.in_stock = true → p.stock_quantity = some 0 →
       ((add_item products carts (some cid) user session pid q fresh).2).isError = false) ∧
    (∀ (products : List Product) (item : CartItem) (rest : List CartItem) (p : Product),
       products.find? (fun x => x.pid == item.product) = some p →
       p.in_stock = false →
       validate_stock products (item :: rest) = some "OUT_OF_STOCK") ∧
    (∀ (products : List Product) (item : CartItem) (rest : List CartItem)
       (p : Product) (n : Int),
       products.find? (fun x => x.pid == item.product) = some p →
       p.in_stock = true → p.track_inventory = true → p.stock_quantity = some n →
       n ≠ 0 → n < item.quantity →
       validate_stock products (item :: rest) = some "INSUFFICIENT_STOCK") := by
  refine ⟨?_, ?_, ?_, ?_, ?_⟩
  · intro products carts cid user session pid q fresh p n hfind hin htr hsq hn hlt
    have hg : (p.track_inventory && truthyInt p.stock_quantity
        && decide (stockVal p.stock_quantity < q)) = true := by
      simp [htr, hsq, truthyInt, stockVal, hn, hlt]
    simp [add_item, hfind, hin, hg]
  · intro products carts cid user session pid q fresh p n cart existing
      hfind hin htr hsq hn hnlt hcart hitem hcum
    have hg1 : (p.track_inventory && truthyInt p.stock_quantity
        && decide (stockVal p.stock_quantity < q)) = false := by
      simp [htr, hsq, truthyInt, stockVal, hn, hnlt]
    have hg2 : (p.track_inventory && truthyInt p.stock_quantity
        && decide (stockVal p.stock_quantity < existing.quantity + q)) = true := by
      simp [htr, hsq, truthyInt, stockVal, hn, hcum]
    simp [add_item, hfind, hin, hg1, cart_get_or_create, hcart, hitem, hg2]
  · intro products carts cid user session pid q fresh p hfind hin hsq
    have hg : ∀ (m : Int), (p.track_inventory && truthyInt p.stock_quantity
        && decide (stockVal p.stock_quantity < m)) = false := by
      intro m; simp [hsq, truthyInt]
    unfold add_item
    simp only [hfind, hin, hg, Bool.false_eq_true, if_false, reduceIte]
    rcases hgc : cart_get_or_create carts cid user session fresh with ⟨carts1, cart, created⟩
    rcases hitem : cart.items.find? (fun ci => ci.product == pid) with _ | existing <;>
      simp [hitem, hg, CartResult.isError]
  · intro products item rest p hfind hout
    unfold validate_stock
    simp [hfind, hout]
  · intro products item rest p n hfind hin htr hsq hn hlt
    have hg : (p.track_inventory && truthyInt p.stock_quantity
        && decide (stockVal p.stock_quantity < item.quantity)) = true := by
      simp [htr, hsq, truthyInt, stockVal, hn, hlt]
    unfold validate_stock
    simp [hfind, hin, hg]

/-- Witness for the amended C6: requesting 11 units of the stock-10 product
is rejected with `INSUFFICIENT_STOCK`, carts untouched. -/
theorem insufficient_stock_rules_witness :
    add_item [c1_product] [] (some 1) (some 1) none 1 11 50
      = ([], .err "INSUFFICIENT_STOCK") :=
  insufficient_stock_rules.1 [c1_product] [] 1 (some 1) none 1 11 50 c1_product 10
    rfl rfl rfl rfl (by decide) (by decide)

/-! ## C7 — tenant resolution and no-tenant semantics -/

/-- **C7 (failing-input evaluation).**  The resolution order itself behaves
as claimed (a foreign header falls through to the caller's owned company, an
owner's header is honoured), but the no-tenant semantics diverge: for an
authenticated non-superuser who owns and belongs to no company and sends no
header, resolution yields none and `get_queryset` returns the **unfiltered**
order table — every tenant's orders, not an empty result set
(`views_orders.py:45-48`) — while the write path fails with code
`COMPANY_NOT_FOUND`, not `TENANT_REQUIRED` (`views_orders.py:75`). -/
theorem no_tenant_reads_leak_all_orders :
    get_company_from_request c7_companies c7_req_foreign_header
      = some ⟨1, 10, []⟩ ∧
    get_company_from_request c7_companies c7_req_own_header
      = some ⟨2, 20, []⟩ ∧
    get_company_from_request c7_companies c7_req_no_tenant = none ∧
    order_get_queryset [plain_order 1 1, plain_order 2 2] c7_companies c7_req_no_tenant
      = [plain_order 1 1, plain_order 2 2] ∧
    [plain_order 1 1, plain_order 2 2] ≠ ([] : List Order) ∧
    (create_from_cart
        { products := [], carts := [], orders := [], order_items := [], next_order_id := 1 }
        { c1_input with company := none }).2 = .err "COMPANY_NOT_FOUND" :=
  ⟨rfl, rfl, rfl, rfl, by simp, rfl⟩

/-! ## C9 — checkout-session amounts and gating -/

/-- **C9 (failing-input evaluation).**  The pending-status gate holds (a
non-pending order fails `ORDER_ALREADY_PAID` whatever the gateway would
reply) and a transport error leaves the order table unchanged, but the
amount is **not** the exact `total × 100`: for the representable two-decimal
total 4.35 the coded conversion `int(float(order.total) * 100)`
(`yoco_service.py:88`) yields 434 cents where the exact value is 435 —
binary64 roundoff plus truncation loses a cent. (For the total 165.35 the
roundoff happens to cancel and the code agrees with the exact 16535.) -/
theorem checkout_amount_float_roundoff :
    py_int_float_100 87 20 = 434 ∧
    ((87 : ℚ) / 20) * 100 = 435 ∧
    py_int_float_100 3307 20 = 16535 ∧
    amount_cents ((87 : ℚ) / 20) = 434 ∧
    create_checkout [c9_order_paid] (some 1) 41 c9_creds "s" "c" .transportError
      = ([c9_order_paid], .error ("ORDER_ALREADY_PAID", 400)) ∧
    create_checkout [c9_order_paid] (some 1) 41 c9_creds "s" "c" (.ok "cx" none)
      = ([c9_order_paid], .error ("ORDER_ALREADY_PAID", 400)) ∧
    create_checkout [c9_order_pending] (some 1) 42 c9_creds "s" "c" .transportError
      = ([c9_order_pending], .error ("YOCO_CONFIG_ERROR", 400)) := by
  refine ⟨by decide, by norm_num, by decide, ?_, rfl, rfl, rfl⟩
  have h1 : ((87 : ℚ) / 20).num = 87 := by norm_num
  have h2 : ((87 : ℚ) / 20).den = 20 := by norm_num
  rw [amount_cents, h1, h2]
  decide

/-! ## C10 — webhook signature verification fails open -/

/-- **C10.**  When signature verification raises (service construction or
the HMAC check throwing), the handler behaves exactly as if the signature
had verified — identical state and response for every input — and the 401
`WEBHOOK_VERIFICATION_FAILED` rejection occurs only when verification
completes and returns false. -/
theorem webhook_fails_open :
    (∀ (orders : List Order) (ev : WebhookEvent) (now : Nat),
       handle_webhook orders ev .raised now = handle_webhook orders ev .valid now) ∧
    (∀ (orders : List Order) (ev : WebhookEvent) (ver : VerifyOutcome) (now : Nat),
       (handle_webhook orders ev ver now).2.code = some "WEBHOOK_VERIFICATION_FAILED" →
       ver = .invalid) := by
  constructor
  · intro orders ev now
    unfold handle_webhook
    rcases hcid : ev.checkoutId with _ | cid <;> simp only [hcid]
    rcases hfind : orders.find? (fun o => o.yoco_checkout_id == some cid) with _ | order <;>
      simp only [hfind]
    rw [if_neg (fun h => VerifyOutcome.noConfusion h),
        if_neg (fun h => VerifyOutcome.noConfusion h)]
  · intro orders ev ver now h
    unfold handle_webhook at h
    rcases hcid : ev.checkoutId with _ | cid <;> simp only [hcid] at h
    · simp at h
    rcases hfind : orders.find? (fun o => o.yoco_checkout_id == some cid) with _ | order <;>
      simp only [hfind] at h
    · simp at h
    by_cases hv : ver = .invalid
    · exact hv
    rw [if_neg hv] at h
    by_cases hev : ev.event = some "payment.succeeded"
    · rw [if_pos hev] at h
      try simp only [hfind] at h
      by_cases hne : ((ev.amount.getD 0 : Int) : ℚ) / 100 ≠ order.total
      · rw [if_pos hne] at h; simp at h
      · rw [if_neg hne] at h; simp at h
    · rw [if_neg hev] at h
      by_cases hef : ev.event = some "payment.failed"
      · rw [if_pos hef] at h
        try simp only [hfind] at h
        simp at h
      · rw [if_neg hef] at h; simp at h

/-- Witness for C10: a concrete event whose verification returns false is
rejected with the 401 code, and the theorem recovers `invalid` from it. -/
theorem webhook_fails_open_witness :
    (handle_webhook [c2_order] c2_event .invalid 5).2.code
      = some "WEBHOOK_VERIFICATION_FAILED" ∧
    VerifyOutcome.invalid = VerifyOutcome.invalid :=
  ⟨rfl, webhook_fails_open.2 [c2_order] c2_event .invalid 5 rfl⟩

end Ecom
